import Mathlib

/-!
Verification of the ltcd lifecycle entry point (`src/ltcd.go`) and of the
store-level components its specification describes.

The Go entry point `ltcdMain` is embedded as a deterministic function from an
environment (which configuration flags are set, which fallible steps fail,
and at which startup checkpoints an interrupt has been observed) to the
ordered trace of lifecycle events it performs plus its returned error, with
Go `defer` semantics made explicit (deferred closures run in LIFO
registration order when the function returns).

Components of the repository that are referenced but whose code is not in
`src/` (the indexers' drop logic, the block store's connect/disconnect, the
schema upgrade engine) are modelled from the specification; their doc
comments say so.
-/

set_option maxRecDepth 100000
set_option maxHeartbeats 1000000

/-- The lifecycle events `ltcdMain` can perform, in the order they appear in
`src/ltcd.go`: configuration load, `doUpgrades`, `loadBlockDB`,
`indexers.DropAddrIndex`, `indexers.DropTxIndex`, `newServer`,
`server.Start`, the blocking wait on the interrupt channel, and the deferred
shutdown actions `server.Stop`, `server.WaitForShutdown` and `db.Close`. -/
inductive Event where
  | loadConfig
  | doUpgrades
  | loadBlockDB
  | dropAddrIndex
  | dropTxIndex
  | newServer
  | serverStart
  | waitInterrupt
  | serverStop
  | serverWaitForShutdown
  | dbClose
  deriving DecidableEq, Repr

/-- The errors `ltcdMain` can return, one per fallible step of the source. -/
inductive Err where
  | loadConfigErr
  | cpuProfileErr
  | upgradeErr
  | loadBlockDBErr
  | dropAddrIndexErr
  | dropTxIndexErr
  | newServerErr
  deriving DecidableEq, Repr

/-- The environment of one run of `ltcdMain`: which configuration flags are
set (`cfg.CPUProfile`, `cfg.DropAddrIndex`, `cfg.DropTxIndex`), which
fallible calls fail, and the value `interruptRequested` returns at each of
the two startup checkpoints (`src/ltcd.go` lines 84 and 101). -/
structure Env where
  loadConfigErr : Bool
  cpuProfileSet : Bool
  cpuProfileCreateErr : Bool
  doUpgradesErr : Bool
  interrupt1 : Bool
  loadBlockDBErr : Bool
  interrupt2 : Bool
  dropAddrIndexFlag : Bool
  dropAddrIndexErr : Bool
  dropTxIndexFlag : Bool
  dropTxIndexErr : Bool
  newServerErr : Bool
  deriving DecidableEq, Repr

/-- Embedding of `ltcdMain` (`src/ltcd.go` lines 34–150).  Returns the trace
of events performed, in order, and the error returned (`none` for a `nil`
return).  Deferred closures are collected in registration order and the
pending ones run in LIFO order at every return point; the `db.Close` defer
is registered only after `loadBlockDB` succeeds, and the
`server.Stop`/`server.WaitForShutdown` defer only after `newServer`
succeeds, exactly as in the source.  Logging, the pprof HTTP goroutine, the
CPU-profile file handle and the `serverChan` notification are not modelled
as events; the early-return branch of a failed CPU-profile file creation
(lines 66–71) is kept because it affects control flow. -/
def ltcdMain (e : Env) : List Event × Option Err :=
  let body : List Event := [Event.loadConfig]
  if e.loadConfigErr then (body, some Err.loadConfigErr)
  else if e.cpuProfileSet && e.cpuProfileCreateErr then
    (body, some Err.cpuProfileErr)
  else
    let body := body ++ [Event.doUpgrades]
    if e.doUpgradesErr then (body, some Err.upgradeErr)
    else if e.interrupt1 then (body, none)
    else
      let body := body ++ [Event.loadBlockDB]
      if e.loadBlockDBErr then (body, some Err.loadBlockDBErr)
      else
        -- defer: db.Close (lines 94–98)
        let defers : List (List Event) := [[Event.dbClose]]
        if e.interrupt2 then (body ++ defers.flatten, none)
        else if e.dropAddrIndexFlag then
          let body := body ++ [Event.dropAddrIndex]
          if e.dropAddrIndexErr then (body ++ defers.flatten, some Err.dropAddrIndexErr)
          else (body ++ defers.flatten, none)
        else if e.dropTxIndexFlag then
          let body := body ++ [Event.dropTxIndex]
          if e.dropTxIndexErr then (body ++ defers.flatten, some Err.dropTxIndexErr)
          else (body ++ defers.flatten, none)
        else
          let body := body ++ [Event.newServer]
          if e.newServerErr then (body ++ defers.flatten, some Err.newServerErr)
          else
            -- defer: server.Stop; server.WaitForShutdown (lines 134–139)
            let defers := [Event.serverStop, Event.serverWaitForShutdown] :: defers
            let body := body ++ [Event.serverStart, Event.waitInterrupt]
            (body ++ defers.flatten, none)

/-- The trace of events a run performs. -/
def trace (e : Env) : List Event := (ltcdMain e).1

/-- The error a run returns (`none` = `nil`). -/
def result (e : Env) : Option Err := (ltcdMain e).2

/-- Exit code of Go `main` (`src/ltcd.go` lines 182–186): `1` when
`ltcdMain` returns a non-nil error, `0` otherwise.  The platform-specific
resource-limit and Windows-service setup preceding the call is not
modelled. -/
def mainExitCode (e : Env) : Nat :=
  if (result e).isSome then 1 else 0

/-- `a` precedes `b` in the trace `tr`: both occur and the first occurrence
of `a` is strictly earlier than the first occurrence of `b`. -/
def precedes (a b : Event) (tr : List Event) : Prop :=
  a ∈ tr ∧ b ∈ tr ∧ tr.indexOf a < tr.indexOf b

instance (a b : Event) (tr : List Event) : Decidable (precedes a b tr) :=
  inferInstanceAs (Decidable (a ∈ tr ∧ b ∈ tr ∧ tr.indexOf a < tr.indexOf b))

/-- The all-`false` environment: no errors, no maintenance flags, no
interrupt during startup — the ordinary successful serving run. -/
def env0 : Env :=
  { loadConfigErr := false, cpuProfileSet := false, cpuProfileCreateErr := false
    doUpgradesErr := false, interrupt1 := false, loadBlockDBErr := false
    interrupt2 := false, dropAddrIndexFlag := false, dropAddrIndexErr := false
    dropTxIndexFlag := false, dropTxIndexErr := false, newServerErr := false }

/-- The ordinary run with `cfg.DropAddrIndex` set and the drop succeeding. -/
def envDropAddr : Env := { env0 with dropAddrIndexFlag := true }

/-- The ordinary run with `cfg.DropTxIndex` set and the drop succeeding. -/
def envDropTx : Env := { env0 with dropTxIndexFlag := true }

/-- Run with `cfg.DropAddrIndex` set and `indexers.DropAddrIndex` failing. -/
def envDropAddrErr : Env :=
  { env0 with dropAddrIndexFlag := true, dropAddrIndexErr := true }

/-- Run with both maintenance drop flags set. -/
def envBothDrops : Env :=
  { env0 with dropAddrIndexFlag := true, dropTxIndexFlag := true }

/-- Run in which the interrupt is observed at the first checkpoint
(`src/ltcd.go` line 84, before `loadBlockDB`). -/
def envInterrupt1 : Env := { env0 with interrupt1 := true }

/-- Run in which the interrupt is observed at the second checkpoint
(`src/ltcd.go` line 101, after the database was opened). -/
def envInterrupt2 : Env := { env0 with interrupt2 := true }

/-- Sanity evaluation: the ordinary run performs the full event sequence of
the source, deferred actions last in LIFO order. -/
theorem trace_env0_eval : trace env0 =
    [Event.loadConfig, Event.doUpgrades, Event.loadBlockDB, Event.newServer,
     Event.serverStart, Event.waitInterrupt, Event.serverStop,
     Event.serverWaitForShutdown, Event.dbClose] ∧ result env0 = none := by
  decide

/-! ## Index Manager (modelled from the spec)

The bodies of `indexers.DropAddrIndex` and `indexers.DropTxIndex` live in
`blockchain/indexers`, which is not part of `src/`; they are modelled from
the specification (§4.3) and from the NOTE at `src/ltcd.go` lines 105–108:
dropping the transaction index also drops the address index since the
latter relies on the former. -/

/-- The two index kinds of the Index Manager. -/
inductive IdxKind where
  | txIndex
  | addrIndex
  deriving DecidableEq, Repr

/-- Modelled from the spec: the store's derived-index state — which of the
Transaction Index and the Address Index currently exist. -/
structure IndexStore where
  hasTxIndex : Bool
  hasAddrIndex : Bool
  deriving DecidableEq, Repr

/-- Modelled from the spec: `HasIndex(kind)` — whether the given index
currently exists in the store. -/
def HasIndex (s : IndexStore) : IdxKind → Bool
  | .txIndex => s.hasTxIndex
  | .addrIndex => s.hasAddrIndex

/-- Modelled from the spec: `indexers.DropAddrIndex` — removes the address
index.  Returns the ordered list of index drops performed together with the
resulting store state. -/
def DropAddrIndex (s : IndexStore) : List IdxKind × IndexStore :=
  ([IdxKind.addrIndex], { s with hasAddrIndex := false })

/-- Modelled from the spec: `indexers.DropTxIndex` — first drops the address
index when it exists (the address index relies on the transaction index),
then drops the transaction index's own data.  Returns the ordered list of
index drops performed together with the resulting store state. -/
def DropTxIndex (s : IndexStore) : List IdxKind × IndexStore :=
  let addrPart := if s.hasAddrIndex then DropAddrIndex s else ([], s)
  (addrPart.1 ++ [IdxKind.txIndex], { addrPart.2 with hasTxIndex := false })

/-- Modelled from the spec: `DropIndex(kind)` of the Index Manager,
dispatching to the kind-specific drop. -/
def DropIndex (s : IndexStore) : IdxKind → List IdxKind × IndexStore
  | .addrIndex => DropAddrIndex s
  | .txIndex => DropTxIndex s

/-- Store state in which both derived indexes exist. -/
def storeBoth : IndexStore := { hasTxIndex := true, hasAddrIndex := true }

/-! ## Block Store connect/disconnect (modelled from the spec)

`ConnectBlock` and `DisconnectTip` belong to the Block Store, whose code is
not in `src/`; they are modelled from the specification (§4.2). -/

/-- Modelled from the spec: per-block Chain Index Entry metadata — parent
reference (`none` for genesis), height and cumulative work.  Block ids are
numbers standing in for content hashes. -/
structure ChainEntry where
  parent : Option Nat
  height : Nat
  work : Nat
  deriving DecidableEq, Repr

/-- Modelled from the spec: the chain state of the Block Store — the Chain
Tip pointer, the chain index entries (block id, entry) and the spend
journal (block id, Spend Record); a Spend Record is kept abstract as a list
of consumed-output references. -/
structure ChainState where
  tip : Nat
  entries : List (Nat × ChainEntry)
  spendJournal : List (Nat × List Nat)
  deriving DecidableEq, Repr

/-- Errors of the Block Store operations, from the spec's error taxonomy. -/
inductive ChainErr where
  | ChainLinkageError
  | EmptyChainError
  | NotFoundError
  deriving DecidableEq, Repr

/-- Look up a block's Chain Index Entry by id. -/
def lookupEntry (s : ChainState) (b : Nat) : Option ChainEntry :=
  (s.entries.find? (fun p => p.1 == b)).map (fun p => p.2)

/-- Modelled from the spec: `ConnectBlock(blockId, spendRecord)` — promotes
the named block to the new Chain Tip; requires the block's parent to equal
the current tip (`ChainLinkageError` otherwise); records the Spend Record
in the spend journal. -/
def ConnectBlock (s : ChainState) (b : Nat) (sr : List Nat) :
    Except ChainErr ChainState :=
  match lookupEntry s b with
  | none => .error .NotFoundError
  | some ent =>
    if ent.parent == some s.tip then
      .ok { s with tip := b, spendJournal := (b, sr) :: s.spendJournal }
    else .error .ChainLinkageError

/-- Modelled from the spec: `DisconnectTip()` — reverses the current tip
using its stored Spend Record (removing the tip's spend-journal entry),
restores the previous tip, and returns the disconnected block id; fails
with `EmptyChainError` if already at genesis (no parent). -/
def DisconnectTip (s : ChainState) : Except ChainErr (ChainState × Nat) :=
  match lookupEntry s s.tip with
  | none => .error .NotFoundError
  | some ent =>
    match ent.parent with
    | none => .error .EmptyChainError
    | some p =>
      .ok ({ s with tip := p, spendJournal := s.spendJournal.eraseP (fun q => q.1 == s.tip) }, s.tip)

/-- A concrete two-entry chain state at genesis (id 0), with block 1's entry
present but not yet connected. -/
def chain0 : ChainState :=
  { tip := 0
    entries := [(0, { parent := none, height := 0, work := 1 }),
                (1, { parent := some 0, height := 1, work := 2 })]
    spendJournal := [] }

/-- The chain state reached by connecting block 1 at `chain0` with Spend
Record `[42]`. -/
def chain1 : ChainState := { chain0 with tip := 1, spendJournal := [(1, [42])] }

/-! ## Upgrade Engine (modelled from the spec)

`doUpgrades` is called at `src/ltcd.go` line 78 but its body is not in
`src/`; the Upgrade Engine is modelled from the specification (§4.4). -/

/-- Modelled from the spec: the schema-versioned store — the stored schema
version and the stored bytes. -/
structure VersionedStore where
  version : Nat
  bytes : List Nat
  deriving DecidableEq, Repr

/-- Error of the Upgrade Engine, from the spec's error taxonomy. -/
inductive UpgradeErr where
  | UnsupportedVersionError
  deriving DecidableEq, Repr

/-- Apply `n` migration steps in strict order, bumping the stored version by
one at each step; `step v` is the transformation from version `v` to
version `v + 1`. -/
def applyMigrations (step : Nat → List Nat → List Nat) :
    Nat → VersionedStore → VersionedStore
  | 0, s => s
  | n + 1, s =>
    applyMigrations step n { version := s.version + 1, bytes := step s.version s.bytes }

/-- Modelled from the spec: `doUpgrades` — the Upgrade Engine run at open
time.  Read the stored version; if equal to the software's current version,
no-op; if newer than current, fail with `UnsupportedVersionError` without
modifying anything; if older, apply the migration steps in strict order up
to current. -/
def doUpgrades (step : Nat → List Nat → List Nat) (current : Nat)
    (s : VersionedStore) : Except UpgradeErr VersionedStore :=
  if s.version = current then .ok s
  else if current < s.version then .error .UnsupportedVersionError
  else .ok (applyMigrations step (current - s.version) s)

/-! ## Claims -/

/-- Claim C1 counterexample: in the ordinary successful serving run
(`env0`), `doUpgrades` runs to completion before `loadBlockDB` opens the
block database, so the open step does not precede the upgrade step as the
claim states. -/
theorem C1_open_before_upgrade_counterexample :
    result env0 = none ∧ Event.doUpgrades ∈ trace env0 ∧
    Event.loadBlockDB ∈ trace env0 ∧
    ¬ precedes Event.loadBlockDB Event.doUpgrades (trace env0) := by
  decide

/-- Claim C1 (amended): during startup of `ltcdMain`, the Upgrade Engine
(`doUpgrades`) runs to completion before the block database is opened
(`loadBlockDB`); the open precedes any maintenance index drop; and a run
that performs a maintenance drop never constructs the serving components. -/
theorem C1_startup_order (e : Env) :
    (Event.loadBlockDB ∈ trace e →
      precedes Event.doUpgrades Event.loadBlockDB (trace e)) ∧
    (Event.dropAddrIndex ∈ trace e →
      precedes Event.loadBlockDB Event.dropAddrIndex (trace e)) ∧
    (Event.dropTxIndex ∈ trace e →
      precedes Event.loadBlockDB Event.dropTxIndex (trace e)) ∧
    ((Event.dropAddrIndex ∈ trace e ∨ Event.dropTxIndex ∈ trace e) →
      Event.newServer ∉ trace e) := by
  obtain ⟨x1, x2, x3, x4, x5, x6, x7, x8, x9, x10, x11, x12⟩ := e
  revert x1 x2 x3 x4 x5 x6 x7 x8 x9 x10 x11 x12
  decide

/-- Claim C1 witness: the amended ordering applied to the concrete
address-index-drop run and the transaction-index-drop run. -/
theorem C1_startup_order_witness :
    precedes Event.doUpgrades Event.loadBlockDB (trace envDropAddr) ∧
    precedes Event.loadBlockDB Event.dropAddrIndex (trace envDropAddr) ∧
    precedes Event.loadBlockDB Event.dropTxIndex (trace envDropTx) ∧
    Event.newServer ∉ trace envDropAddr :=
  ⟨(C1_startup_order envDropAddr).1 (by decide),
   (C1_startup_order envDropAddr).2.1 (by decide),
   (C1_startup_order envDropTx).2.2.1 (by decide),
   (C1_startup_order envDropAddr).2.2.2 (Or.inl (by decide))⟩

/-- Claim C2: in every run in which the database was opened, `db.Close`
runs; and in every run in which the server was also constructed, the
shutdown sequence is `server.Stop`, then `server.WaitForShutdown`, strictly
before `db.Close` — this holds for normal completion, interrupts and
errors alike since the property is quantified over all environments. -/
theorem C2_shutdown_order (e : Env) :
    ((Event.loadBlockDB ∈ trace e ∧ e.loadBlockDBErr = false) →
      Event.dbClose ∈ trace e) ∧
    ((Event.newServer ∈ trace e ∧ e.newServerErr = false) →
      precedes Event.serverStop Event.serverWaitForShutdown (trace e) ∧
      precedes Event.serverWaitForShutdown Event.dbClose (trace e) ∧
      Event.dbClose ∈ trace e) := by
  obtain ⟨x1, x2, x3, x4, x5, x6, x7, x8, x9, x10, x11, x12⟩ := e
  revert x1 x2 x3 x4 x5 x6 x7 x8 x9 x10 x11 x12
  decide

/-- Claim C2 witness: the shutdown ordering on the ordinary serving run. -/
theorem C2_shutdown_order_witness :
    Event.dbClose ∈ trace env0 ∧
    precedes Event.serverStop Event.serverWaitForShutdown (trace env0) ∧
    precedes Event.serverWaitForShutdown Event.dbClose (trace env0) :=
  ⟨(C2_shutdown_order env0).1 (by decide),
   ((C2_shutdown_order env0).2 (by decide)).1,
   ((C2_shutdown_order env0).2 (by decide)).2.1⟩

/-- Claim C3: every fatal error after the database was opened (an
index-drop failure or a server-construction failure) makes `ltcdMain`
return that error with no serving component ever started (`server.Start`
and the server shutdown actions never appear in the trace), and the opened
database handle is still closed on the way out. -/
theorem C3_fatal_error_after_open (e : Env)
    (h : result e = some Err.dropAddrIndexErr ∨
         result e = some Err.dropTxIndexErr ∨
         result e = some Err.newServerErr) :
    Event.serverStart ∉ trace e ∧ Event.serverStop ∉ trace e ∧
    Event.dbClose ∈ trace e := by
  obtain ⟨x1, x2, x3, x4, x5, x6, x7, x8, x9, x10, x11, x12⟩ := e
  revert x1 x2 x3 x4 x5 x6 x7 x8 x9 x10 x11 x12
  decide

/-- Claim C3 witness: the concrete run in which the requested address-index
drop fails. -/
theorem C3_fatal_error_after_open_witness :
    Event.serverStart ∉ trace envDropAddrErr ∧
    Event.serverStop ∉ trace envDropAddrErr ∧
    Event.dbClose ∈ trace envDropAddrErr :=
  C3_fatal_error_after_open envDropAddrErr (Or.inl (by decide))

/-- Claim C4: when a maintenance drop flag is set and the corresponding
drop is performed and succeeds, `ltcdMain` returns `nil` without ever
constructing or starting the serving components; and a transaction-index
drop on a store holding an address index performs the address-index drop
first. -/
theorem C4_drop_and_exit (e : Env) (s : IndexStore) :
    ((e.dropAddrIndexFlag = true ∧ Event.dropAddrIndex ∈ trace e ∧
        e.dropAddrIndexErr = false) →
      result e = none ∧ Event.newServer ∉ trace e ∧
      Event.serverStart ∉ trace e) ∧
    ((e.dropTxIndexFlag = true ∧ Event.dropTxIndex ∈ trace e ∧
        e.dropTxIndexErr = false) →
      result e = none ∧ Event.newServer ∉ trace e ∧
      Event.serverStart ∉ trace e) ∧
    (HasIndex s IdxKind.addrIndex = true →
      (DropIndex s IdxKind.txIndex).1 = [IdxKind.addrIndex, IdxKind.txIndex]) := by
  obtain ⟨x1, x2, x3, x4, x5, x6, x7, x8, x9, x10, x11, x12⟩ := e
  obtain ⟨tx, ad⟩ := s
  refine ⟨?_, ?_, ?_⟩
  · revert x1 x2 x3 x4 x5 x6 x7 x8 x9 x10 x11 x12
    decide
  · revert x1 x2 x3 x4 x5 x6 x7 x8 x9 x10 x11 x12
    decide
  · revert tx ad
    decide

/-- Claim C4 witness: the concrete successful address-index-drop run, the
concrete successful transaction-index-drop run, and the drop order on a
store holding both indexes. -/
theorem C4_drop_and_exit_witness :
    (result envDropAddr = none ∧ Event.newServer ∉ trace envDropAddr ∧
      Event.serverStart ∉ trace envDropAddr) ∧
    (result envDropTx = none ∧ Event.newServer ∉ trace envDropTx ∧
      Event.serverStart ∉ trace envDropTx) ∧
    (DropIndex storeBoth IdxKind.txIndex).1 = [IdxKind.addrIndex, IdxKind.txIndex] :=
  ⟨(C4_drop_and_exit envDropAddr storeBoth).1 (by decide),
   (C4_drop_and_exit envDropTx storeBoth).2.1 (by decide),
   (C4_drop_and_exit env0 storeBoth).2.2 (by decide)⟩

/-- Claim C5: on every store state in which the Address Index exists,
`DropIndex(TransactionIndex)` removes both indexes — afterward
`HasIndex(AddressIndex)` and `HasIndex(TransactionIndex)` are both
`false`. -/
theorem C5_drop_tx_index_cascades (s : IndexStore)
    (h : HasIndex s IdxKind.addrIndex = true) :
    HasIndex (DropIndex s IdxKind.txIndex).2 IdxKind.addrIndex = false ∧
    HasIndex (DropIndex s IdxKind.txIndex).2 IdxKind.txIndex = false := by
  obtain ⟨tx, ad⟩ := s
  revert tx ad
  decide

/-- Claim C5 witness: the cascade drop on the store holding both indexes. -/
theorem C5_drop_tx_index_cascades_witness :
    HasIndex (DropIndex storeBoth IdxKind.txIndex).2 IdxKind.addrIndex = false ∧
    HasIndex (DropIndex storeBoth IdxKind.txIndex).2 IdxKind.txIndex = false :=
  C5_drop_tx_index_cascades storeBoth (by decide)

/-- Claim C6: an interrupt observed at the first checkpoint skips the
database load, the index drops and all server steps; an interrupt observed
at the second checkpoint skips the index drops and all server steps while
still closing the database handle whenever it was opened. -/
theorem C6_interrupt_skips_startup (e : Env) :
    (e.interrupt1 = true →
      Event.loadBlockDB ∉ trace e ∧ Event.dropAddrIndex ∉ trace e ∧
      Event.dropTxIndex ∉ trace e ∧ Event.newServer ∉ trace e ∧
      Event.serverStart ∉ trace e) ∧
    (e.interrupt2 = true →
      Event.dropAddrIndex ∉ trace e ∧ Event.dropTxIndex ∉ trace e ∧
      Event.newServer ∉ trace e ∧ Event.serverStart ∉ trace e ∧
      ((Event.loadBlockDB ∈ trace e ∧ e.loadBlockDBErr = false) →
        Event.dbClose ∈ trace e)) := by
  obtain ⟨x1, x2, x3, x4, x5, x6, x7, x8, x9, x10, x11, x12⟩ := e
  refine ⟨?_, ?_⟩
  · revert x1 x2 x3 x4 x5 x6 x7 x8 x9 x10 x11 x12
    decide
  · revert x1 x2 x3 x4 x5 x6 x7 x8 x9 x10 x11 x12
    decide

/-- Claim C6 witness: the concrete first-checkpoint and second-checkpoint
interrupt runs. -/
theorem C6_interrupt_skips_startup_witness :
    (Event.loadBlockDB ∉ trace envInterrupt1 ∧
      Event.dropAddrIndex ∉ trace envInterrupt1 ∧
      Event.dropTxIndex ∉ trace envInterrupt1 ∧
      Event.newServer ∉ trace envInterrupt1 ∧
      Event.serverStart ∉ trace envInterrupt1) ∧
    (Event.dropAddrIndex ∉ trace envInterrupt2 ∧
      Event.dropTxIndex ∉ trace envInterrupt2 ∧
      Event.newServer ∉ trace envInterrupt2 ∧
      Event.serverStart ∉ trace envInterrupt2 ∧
      ((Event.loadBlockDB ∈ trace envInterrupt2 ∧
          envInterrupt2.loadBlockDBErr = false) →
        Event.dbClose ∈ trace envInterrupt2)) :=
  ⟨(C6_interrupt_skips_startup envInterrupt1).1 (by decide),
   (C6_interrupt_skips_startup envInterrupt2).2 (by decide)⟩

/-- Claim C7: connecting a connectable block `b` (its entry's parent is the
current tip, and `b` has no spend-journal entry yet) and then disconnecting
the tip returns the chain state bit-identical to the starting state `s`,
together with the disconnected block id `b`; in particular `b`'s
spend-journal entry is absent afterward. -/
theorem C7_connect_disconnect_roundtrip (s s' : ChainState) (b : Nat)
    (sr : List Nat)
    (habs : s.spendJournal.find? (fun q => q.1 == b) = none)
    (hconn : ConnectBlock s b sr = .ok s') :
    DisconnectTip s' = .ok (s, b) ∧
    ∀ t : ChainState, DisconnectTip s' = .ok (t, b) →
      t.spendJournal.find? (fun q => q.1 == b) = none := by
  obtain ⟨tip, entries, journal⟩ := s
  unfold ConnectBlock at hconn
  split at hconn
  · exact absurd hconn (by simp)
  · rename_i ent hl
    split at hconn
    · rename_i hp
      injection hconn with hs
      subst hs
      dsimp only at hl hp ⊢
      have hp' : ent.parent = some tip := by simpa using hp
      have hdis : DisconnectTip
          { tip := b, entries := entries, spendJournal := (b, sr) :: journal } =
          .ok ({ tip := tip, entries := entries, spendJournal := journal }, b) := by
        unfold DisconnectTip
        dsimp only
        rw [show lookupEntry { tip := b, entries := entries, spendJournal := (b, sr) :: journal } b = some ent from hl]
        dsimp only
        rw [hp']
        dsimp only
        rw [List.eraseP_cons_of_pos (by simp)]
      refine ⟨hdis, ?_⟩
      intro t ht
      rw [hdis] at ht
      injection ht with ht'
      have htt : t = { tip := tip, entries := entries, spendJournal := journal } :=
        (congrArg Prod.fst ht').symm
      rw [htt]
      exact habs
    · exact absurd hconn (by simp)

/-- Claim C7 witness: the round trip on the concrete two-entry chain,
connecting block 1 at genesis and disconnecting it again. -/
theorem C7_connect_disconnect_roundtrip_witness :
    DisconnectTip chain1 = .ok (chain0, 1) :=
  (C7_connect_disconnect_roundtrip chain0 chain1 1 [42] rfl rfl).1

/-- Claim C8: running the Upgrade Engine when the stored version equals the
current software version is a no-op — the store, bytes included, comes back
unchanged, and applying the engine twice in a row gives the same unchanged
store; when the stored version exceeds the current version it fails with
`UnsupportedVersionError` and returns no modified store. -/
theorem C8_upgrade_noop_and_refuse (step : Nat → List Nat → List Nat)
    (current : Nat) (s : VersionedStore) :
    (s.version = current →
      doUpgrades step current s = .ok s ∧
      (doUpgrades step current s).bind (doUpgrades step current) = .ok s) ∧
    (current < s.version →
      doUpgrades step current s = .error .UnsupportedVersionError) := by
  constructor
  · intro h
    have h1 : doUpgrades step current s = .ok s := by
      unfold doUpgrades
      rw [if_pos h]
    exact ⟨h1, by rw [h1]; exact h1⟩
  · intro h
    unfold doUpgrades
    rw [if_neg (Nat.ne_of_gt h), if_pos h]

/-- Claim C8 witness: the engine at a store already at version 5 with
current version 5, and at a store at version 7 with current version 5. -/
theorem C8_upgrade_noop_and_refuse_witness :
    (doUpgrades (fun _ bs => bs) 5 ⟨5, [1, 2, 3]⟩ = .ok ⟨5, [1, 2, 3]⟩ ∧
      (doUpgrades (fun _ bs => bs) 5 ⟨5, [1, 2, 3]⟩).bind
        (doUpgrades (fun _ bs => bs) 5) = .ok ⟨5, [1, 2, 3]⟩) ∧
    doUpgrades (fun _ bs => bs) 5 ⟨7, [4]⟩ = .error .UnsupportedVersionError :=
  ⟨(C8_upgrade_noop_and_refuse (fun _ bs => bs) 5 ⟨5, [1, 2, 3]⟩).1 rfl,
   (C8_upgrade_noop_and_refuse (fun _ bs => bs) 5 ⟨7, [4]⟩).2 (by decide)⟩

/-- Claim C9: when both maintenance drop flags are set, the
transaction-index drop is never performed and the serving components are
never constructed — the address-index branch returns first — and when the
address-index drop is performed and succeeds the run returns `nil`. -/
theorem C9_both_flags_addr_only (e : Env)
    (h : e.dropAddrIndexFlag = true ∧ e.dropTxIndexFlag = true) :
    Event.dropTxIndex ∉ trace e ∧ Event.newServer ∉ trace e ∧
    ((Event.dropAddrIndex ∈ trace e ∧ e.dropAddrIndexErr = false) →
      result e = none) := by
  obtain ⟨x1, x2, x3, x4, x5, x6, x7, x8, x9, x10, x11, x12⟩ := e
  revert x1 x2 x3 x4 x5 x6 x7 x8 x9 x10 x11 x12
  decide

/-- Claim C9 witness: the concrete run with both drop flags set. -/
theorem C9_both_flags_addr_only_witness :
    Event.dropTxIndex ∉ trace envBothDrops ∧
    Event.newServer ∉ trace envBothDrops ∧
    result envBothDrops = none := by
  have h := C9_both_flags_addr_only envBothDrops (by decide)
  exact ⟨h.1, h.2.1, h.2.2 (by decide)⟩

/-- Claim C10: an interrupt observed at a reached startup checkpoint makes
`ltcdMain` return `nil` and `main` exit successfully; no serving component
runs, and only the cleanup deferred so far runs — in particular, at the
first checkpoint the database was never opened so `db.Close` does not run,
while at the second checkpoint it does. -/
theorem C10_interrupt_exits_cleanly (e : Env)
    (h : (Event.doUpgrades ∈ trace e ∧ e.doUpgradesErr = false ∧
            e.interrupt1 = true) ∨
         (Event.loadBlockDB ∈ trace e ∧ e.loadBlockDBErr = false ∧
            e.interrupt2 = true)) :
    result e = none ∧ mainExitCode e = 0 ∧
    Event.serverStart ∉ trace e ∧ Event.serverStop ∉ trace e ∧
    Event.serverWaitForShutdown ∉ trace e ∧
    ((Event.doUpgrades ∈ trace e ∧ e.doUpgradesErr = false ∧
        e.interrupt1 = true) → Event.dbClose ∉ trace e) ∧
    ((Event.loadBlockDB ∈ trace e ∧ e.loadBlockDBErr = false ∧
        e.interrupt2 = true) → Event.dbClose ∈ trace e) := by
  obtain ⟨x1, x2, x3, x4, x5, x6, x7, x8, x9, x10, x11, x12⟩ := e
  revert x1 x2 x3 x4 x5 x6 x7 x8 x9 x10 x11 x12
  decide

/-- Claim C10 witness: the concrete first-checkpoint interrupt run exits
with code 0, returns `nil`, and runs no deferred cleanup beyond what was
registered. -/
theorem C10_interrupt_exits_cleanly_witness :
    result envInterrupt1 = none ∧ mainExitCode envInterrupt1 = 0 ∧
    Event.serverStart ∉ trace envInterrupt1 ∧
    Event.serverStop ∉ trace envInterrupt1 ∧
    Event.serverWaitForShutdown ∉ trace envInterrupt1 ∧
    Event.dbClose ∉ trace envInterrupt1 := by
  have h := C10_interrupt_exits_cleanly envInterrupt1 (Or.inl (by decide))
  exact ⟨h.1, h.2.1, h.2.2.1, h.2.2.2.1, h.2.2.2.2.1, h.2.2.2.2.2.1 (by decide)⟩
